import Mathlib

/-!
Verification of the table-segmentation and row-extraction core of the
Capital Budgeting Excel Processor (src/main.py).

The loaded worksheet is modelled as a rectangular grid of cells.  After the
load-time normalisation `df.where(pd.notnull(df), None)`, a cell is either
the absent marker `None`, a number, or a string; numeric values and
arithmetic are modelled over `ℚ` (abstracting float rounding, which no
claim depends on).  Python behaviours used by the code — truthiness,
`str()`, `.strip()`, `.strip('%')`, substring containment and `float()`
parsing — are modelled explicitly below.
-/

/-- A worksheet cell after load-time normalisation: `None`, a number, or a
string. -/
inductive Cell where
  | none : Cell
  | num (q : ℚ) : Cell
  | str (s : String) : Cell
  deriving DecidableEq

/-- The loaded DataFrame: its rows (lists of cells) and its column count
(`len(excel_data.columns)`).  Loaded pandas frames are rectangular; where a
claim needs that, it is an explicit hypothesis. -/
structure Grid where
  rows : List (List Cell)
  ncols : ℕ

/-- Errors surfaced by the endpoints: an `HTTPException(404, detail)` or an
uncaught Python `IndexError` (only `ValueError`/`TypeError` are caught by
the summation code). -/
inductive ApiError where
  | http404 (detail : String) : ApiError
  | pyIndexError : ApiError
  deriving DecidableEq

/-- Response of `/row_sum` (`RowSumResponse` in src/main.py). -/
structure RowSumResponse where
  table_name : String
  row_name : String
  sum : ℚ
  deriving DecidableEq

/-- Python truthiness of a cell value: `None` and `0` and `""` are falsy. -/
def truthy : Cell → Bool
  | Cell.none => false
  | Cell.num q => q != 0
  | Cell.str s => s != ""

/-- Strip the characters satisfying `p` from both ends of a character list
(the semantics of Python `str.strip`). -/
def pyStripList (p : Char → Bool) (l : List Char) : List Char :=
  ((l.dropWhile p).reverse.dropWhile p).reverse

/-- Python `s.strip()`: remove leading and trailing whitespace. -/
def pyStrip (s : String) : String :=
  String.mk (pyStripList Char.isWhitespace s.data)

/-- Python `c in s` for a single character: substring containment of one
character is character membership. -/
def pyContains (s : String) (c : Char) : Bool :=
  s.data.contains c

/-- Python `s.strip('%')`: remove leading and trailing `'%'` characters. -/
def stripPercent (s : String) : String :=
  String.mk (pyStripList (fun c => c == '%') s.data)

/-- The decimal digit character for `d` (for `d ≤ 9`). -/
def digitChar (d : ℕ) : Char :=
  match d with
  | 0 => '0' | 1 => '1' | 2 => '2' | 3 => '3' | 4 => '4'
  | 5 => '5' | 6 => '6' | 7 => '7' | 8 => '8' | _ => '9'

/-- Decimal digits of `n`, most significant first, by fuelled division. -/
def digitsAux : ℕ → ℕ → List Char
  | 0, _ => []
  | _ + 1, 0 => []
  | fuel + 1, n + 1 => digitsAux fuel ((n + 1) / 10) ++ [digitChar ((n + 1) % 10)]

/-- Decimal rendering of a natural number (`"0"` for zero). -/
def digitsOf (n : ℕ) : List Char :=
  if n = 0 then ['0'] else digitsAux n n

/-- Characters of the Python `str()` rendering of a numeric cell: sign,
integer digits, then `".0"` for integral values (Python renders integral
floats as e.g. `"100.0"`); non-integral rationals are rendered with a
`'/'`, abstracting Python's decimal float repr.  No claim depends on the
exact digits, only that the rendering is nonempty, whitespace-free text
over digits and `- . /`. -/
def numReprChars (q : ℚ) : List Char :=
  (if q.num < 0 then ['-'] else []) ++ digitsOf q.num.natAbs ++
    (if q.den = 1 then ['.', '0'] else '/' :: digitsOf q.den)

/-- Python `str()` of a numeric cell. -/
def numRepr (q : ℚ) : String :=
  String.mk (numReprChars q)

/-- Python `str()` of a cell value. -/
def pyStr : Cell → String
  | Cell.none => "None"
  | Cell.num q => numRepr q
  | Cell.str s => s

/-- Numeric value of an unsigned decimal digit string. -/
def digitsToNat (l : List Char) : ℕ :=
  l.foldl (fun a c => 10 * a + (c.toNat - 48)) 0

/-- Parse an unsigned decimal literal: digits with an optional single
decimal point, at least one digit overall. -/
def parseUnsignedFloat (l : List Char) : Option ℚ :=
  let intPart := l.takeWhile Char.isDigit
  let rest := l.dropWhile Char.isDigit
  match rest with
  | [] => if intPart.isEmpty then none else some (digitsToNat intPart)
  | '.' :: frac =>
    if frac.all Char.isDigit && !(intPart.isEmpty && frac.isEmpty) then
      some ((digitsToNat intPart : ℚ) + (digitsToNat frac : ℚ) / (10 : ℚ) ^ frac.length)
    else none
  | _ => none

/-- Python `float(s)` on a string, modelled for ordinary signed decimal
literals with surrounding whitespace (the forms the worksheet contains);
exotic accepted forms (exponents, `inf`, `nan`, underscores) are not
modelled.  `none` is a raised `ValueError`. -/
def parsePyFloat (s : String) : Option ℚ :=
  match pyStripList Char.isWhitespace s.data with
  | '-' :: rest => (parseUnsignedFloat rest).map (fun x => -x)
  | '+' :: rest => parseUnsignedFloat rest
  | l => parseUnsignedFloat l

/-- Python `float(value)` on a cell: a number is itself, a string is
parsed, and `float(None)` raises `TypeError` (`none`). -/
def parseCellFloat : Cell → Option ℚ
  | Cell.none => Option.none
  | Cell.num q => some q
  | Cell.str s => parsePyFloat s

/-- The eight fixed table-header labels (src/main.py lines 66-75). -/
def tableHeaders : List String :=
  ["INITIAL INVESTMENT", "CASHFLOW DETAILS", "DISCOUNT RATE",
   "WORKING CAPITAL", "GROWTH RATES", "SALVAGE VALUE",
   "OPERATING CASHFLOWS", "BOOK VALUE & DEPRECIATION"]

/-- Column-0 value of a row (`row[0]` / `iloc[r, 0]`).  Loaded frames have
at least one column whenever they have a row, so the default is never hit
on a loaded grid. -/
def cell0 (row : List Cell) : Cell :=
  row.headD Cell.none

/-- The scan of `list_tables` (src/main.py lines 64-76): for each row whose
column-0 value is truthy, is a string, and strips to a header label, append
the stripped label. -/
def listTablesAux : List (List Cell) → List String
  | [] => []
  | row :: rest =>
    match cell0 row with
    | Cell.str s =>
      if s ≠ "" ∧ pyStrip s ∈ tableHeaders then pyStrip s :: listTablesAux rest
      else listTablesAux rest
    | _ => listTablesAux rest

/-- `GET /list_tables` on a loaded grid (src/main.py lines 52-78). -/
def list_tables (g : Grid) : List String :=
  listTablesAux g.rows

/-- The header-row scan of `get_table_details` (src/main.py lines 95-99):
index of the first row whose column-0 value is truthy, a string, and strips
to `t`. -/
def headerScan (t : String) : List (List Cell) → Option ℕ
  | [] => none
  | row :: rest =>
    match cell0 row with
    | Cell.str s =>
      if s ≠ "" ∧ pyStrip s = t then some 0
      else (headerScan t rest).map (· + 1)
    | _ => (headerScan t rest).map (· + 1)

/-- Whether a cell is a string stripping to a header label (the
`isinstance(row_name, str) and row_name.strip() in [...]` test of
src/main.py lines 114-123). -/
def isHeaderStr (c : Cell) : Bool :=
  match c with
  | Cell.str s => decide (pyStrip s ∈ tableHeaders)
  | _ => false

/-- The row-name collection loop of `get_table_details` (src/main.py lines
105-127), run on the rows after the header row: stop at a `None` cell, at a
cell whose `str()` strips to empty, or at a header-label string; otherwise
accumulate `str(row_name).strip()`. -/
def collectRowNames : List (List Cell) → List String
  | [] => []
  | row :: rest =>
    let c := cell0 row
    if c = Cell.none then []
    else if pyStrip (pyStr c) = "" then []
    else if isHeaderStr c then []
    else pyStrip (pyStr c) :: collectRowNames rest

/-- `GET /get_table_details` on a loaded grid (src/main.py lines 80-132):
the table name paired with its row names, or a 404. -/
def get_table_details (g : Grid) (table_name : String) :
    Except ApiError (String × List String) :=
  match headerScan table_name g.rows with
  | none => Except.error (ApiError.http404 ("Table '" ++ table_name ++ "' not found"))
  | some i => Except.ok (table_name, collectRowNames (g.rows.drop (i + 1)))

/-- The row-relocation scan of `calculate_row_sum` (src/main.py lines
158-163): index of the first row whose column-0 value is truthy and whose
`str()` strips to `r` (a falsy cell yields `None`, which never equals the
string `r`). -/
def relocScan (r : String) : List (List Cell) → Option ℕ
  | [] => none
  | row :: rest =>
    if truthy (cell0 row) ∧ pyStrip (pyStr (cell0 row)) = r then some 0
    else (relocScan r rest).map (· + 1)

/-- The `INITIAL INVESTMENT` branch of `calculate_row_sum` (src/main.py
lines 172-183): read `iloc[target_row, 2]` (an out-of-range column raises
`IndexError`, which is not caught); `0` for an absent cell, parse with `%`
handling otherwise, `0` on a caught parse failure. -/
def iiSum (row : List Cell) : Except ApiError ℚ :=
  match row[2]? with
  | Option.none => Except.error ApiError.pyIndexError
  | some value =>
    match value with
    | Cell.none => Except.ok 0
    | Cell.str s =>
      if pyContains s '%' then
        match parsePyFloat (stripPercent s) with
        | some x => Except.ok (x / 100)
        | Option.none => Except.ok 0
      else
        match parsePyFloat s with
        | some x => Except.ok x
        | Option.none => Except.ok 0
    | Cell.num q => Except.ok q

/-- The general-table summation loop of `calculate_row_sum` (src/main.py
lines 186-196), over the list of column indices: an absent cell is skipped
(`pd.notna` guard), a `%`-string contributes its stripped parse over 100, a
caught parse failure is skipped, and an out-of-range column raises an
uncaught `IndexError`. -/
def sumGeneralAux (row : List Cell) : List ℕ → ℚ → Except ApiError ℚ
  | [], acc => Except.ok acc
  | c :: cs, acc =>
    match row[c]? with
    | Option.none => Except.error ApiError.pyIndexError
    | some value =>
      match value with
      | Cell.none => sumGeneralAux row cs acc
      | Cell.str s =>
        if pyContains s '%' then
          match parsePyFloat (stripPercent s) with
          | some x => sumGeneralAux row cs (acc + x / 100)
          | Option.none => sumGeneralAux row cs acc
        else
          match parsePyFloat s with
          | some x => sumGeneralAux row cs (acc + x)
          | Option.none => sumGeneralAux row cs acc
      | Cell.num q => sumGeneralAux row cs (acc + q)

/-- The summation phase of `calculate_row_sum` (src/main.py lines 168-202),
after the target row index has been located: column 2 alone for
`INITIAL INVESTMENT`, otherwise columns `0` to `ncols - 1`. -/
def sumPhase (g : Grid) (t r : String) (tr : ℕ) : Except ApiError RowSumResponse :=
  match g.rows[tr]? with
  | Option.none => Except.error ApiError.pyIndexError
  | some row =>
    if t = "INITIAL INVESTMENT" then
      (iiSum row).map (fun v => ⟨t, r, v⟩)
    else
      (sumGeneralAux row (List.range g.ncols) 0).map (fun v => ⟨t, r, v⟩)

/-- `GET /row_sum` on a loaded grid (src/main.py lines 134-202): existence
checks via `get_table_details` and membership, then relocation of the row
in the full grid, then summation. -/
def calculate_row_sum (g : Grid) (table_name row_name : String) :
    Except ApiError RowSumResponse :=
  match get_table_details g table_name with
  | Except.error e => Except.error e
  | Except.ok td =>
    if row_name ∈ td.2 then
      match relocScan row_name g.rows with
      | Option.none =>
        Except.error (ApiError.http404 ("Row '" ++ row_name ++ "' not found in Excel data"))
      | some tr => sumPhase g table_name row_name tr
    else
      Except.error
        (ApiError.http404 ("Row '" ++ row_name ++ "' not found in table '" ++ table_name ++ "'"))

/-! ## Claim-side descriptions

Definitions below restate the spec's aggregation and segmentation policy in
its own terms, to be compared with the code embedding above. -/

/-- The spec's per-cell aggregation policy: an absent cell contributes `0`
(equivalently, is skipped), a string containing `%` contributes its
`%`-stripped parse divided by 100, any other cell its floating-point parse,
and a parse failure contributes nothing. -/
def cellContribution (c : Cell) : ℚ :=
  match c with
  | Cell.none => 0
  | Cell.num q => q
  | Cell.str s =>
    if pyContains s '%' then
      match parsePyFloat (stripPercent s) with
      | some x => x / 100
      | Option.none => 0
    else
      match parsePyFloat s with
      | some x => x
      | Option.none => 0

/-- Index of the first row satisfying `p`, scanning top-to-bottom. -/
def firstRowIdx (p : List Cell → Bool) : List (List Cell) → Option ℕ
  | [] => none
  | row :: rest => if p row then some 0 else (firstRowIdx p rest).map (· + 1)

/-- The spec's header-row test: the column-0 value is a (nonempty) string
whose trim equals the table name.  An empty string is an empty marker in
the spec's data model, not a string value. -/
def claimHeaderRow (t : String) (row : List Cell) : Bool :=
  match cell0 row with
  | Cell.str s => decide (s ≠ "") && decide (pyStrip s = t)
  | _ => false

/-- The spec's boundary test for row-name accumulation: the column-0 value
is empty/absent, or is a string trimming to one of the eight header
labels. -/
def isBoundaryCell (c : Cell) : Bool :=
  decide (c = Cell.none) || decide (pyStrip (pyStr c) = "") || isHeaderStr c

/-- The spec's relocation test (for the row-sum second scan): the column-0
value is truthy and its `str()` trims to the row name. -/
def relocMatch (r : String) (row : List Cell) : Prop :=
  truthy (cell0 row) = true ∧ pyStrip (pyStr (cell0 row)) = r

/-! ## Helper lemmas -/

theorem iiSum_ok_of_get (row : List Cell) (c : Cell) (h : row[2]? = some c) :
    iiSum row = Except.ok (cellContribution c) := by
  unfold iiSum cellContribution
  rw [h]
  cases c with
  | none => rfl
  | num q => rfl
  | str s =>
    by_cases hp : pyContains s '%' <;> simp only [hp, if_true, if_false, Bool.false_eq_true]
    · cases parsePyFloat (stripPercent s) <;> rfl
    · cases parsePyFloat s <;> rfl

theorem sumGeneralAux_ok (row : List Cell) (cols : List ℕ) (acc : ℚ)
    (h : ∀ i ∈ cols, i < row.length) :
    sumGeneralAux row cols acc =
      Except.ok (cols.foldl (fun a i => a + cellContribution (row.getD i Cell.none)) acc) := by
  induction cols generalizing acc with
  | nil => rfl
  | cons c cs ih =>
    have hc : c < row.length := h c (List.mem_cons_self c cs)
    have hcs : ∀ i ∈ cs, i < row.length := fun i hi => h i (List.mem_cons_of_mem _ hi)
    have hget : row[c]? = some row[c] := List.getElem?_eq_getElem hc
    have hgetD : row.getD c Cell.none = row[c] := List.getD_eq_getElem row Cell.none hc
    cases hv : row[c] with
    | none =>
      simp only [sumGeneralAux, hget, hv, List.foldl_cons, hgetD, cellContribution, add_zero]
      exact ih acc hcs
    | num q =>
      simp only [sumGeneralAux, hget, hv, List.foldl_cons, hgetD, cellContribution]
      exact ih (acc + q) hcs
    | str s =>
      simp only [sumGeneralAux, hget, hv, List.foldl_cons, hgetD, cellContribution]
      by_cases hp : pyContains s '%'
      · rw [if_pos hp, if_pos hp]
        cases hps : parsePyFloat (stripPercent s) with
        | none => simp only [add_zero]; exact ih acc hcs
        | some x => exact ih (acc + x / 100) hcs
      · rw [if_neg hp, if_neg hp]
        cases hps : parsePyFloat s with
        | none => simp only [add_zero]; exact ih acc hcs
        | some x => exact ih (acc + x) hcs

theorem relocScan_some (r : String) (l : List (List Cell)) (i : ℕ)
    (h : relocScan r l = some i) :
    (∃ row, l[i]? = some row ∧ relocMatch r row) ∧
      ∀ j, j < i → ∀ row', l[j]? = some row' → ¬relocMatch r row' := by
  induction l generalizing i with
  | nil => simp [relocScan] at h
  | cons row rest ih =>
    rw [relocScan] at h
    by_cases hm : truthy (cell0 row) = true ∧ pyStrip (pyStr (cell0 row)) = r
    · rw [if_pos hm] at h
      cases h
      refine ⟨⟨row, by simp, hm⟩, ?_⟩
      intro j hj
      exact absurd hj (Nat.not_lt_zero j)
    · rw [if_neg hm] at h
      cases hr : relocScan r rest with
      | none => rw [hr] at h; simp at h
      | some k =>
        rw [hr] at h
        simp only [Option.map_some'] at h
        obtain rfl : k + 1 = i := Option.some.inj h
        obtain ⟨⟨row', hg, hm'⟩, hmin⟩ := ih k hr
        refine ⟨⟨row', by simpa using hg, hm'⟩, ?_⟩
        intro j hj row'' hg''
        cases j with
        | zero =>
          rw [List.getElem?_cons_zero] at hg''
          cases hg''
          exact hm
        | succ j' =>
          rw [List.getElem?_cons_succ] at hg''
          exact hmin j' (Nat.lt_of_succ_lt_succ hj) row'' hg''

/-! ## Claims -/

/-- C1: for table name `INITIAL INVESTMENT`, once the table and row
existence checks pass and the row is located, the returned sum is computed
from exactly the cell at column index 2 of the located row: 0 if that cell
is absent/empty, (parsed number)/100 if it is a string containing `%` with
the `%` stripped, the cell's floating-point parse otherwise, and 0 on any
parse failure. -/
theorem c1_initial_investment_sum_from_column2 (g : Grid) (r : String)
    (td : String × List String) (i : ℕ) (row : List Cell) (c : Cell)
    (h1 : get_table_details g "INITIAL INVESTMENT" = Except.ok td)
    (h2 : r ∈ td.2)
    (h3 : relocScan r g.rows = some i)
    (h4 : g.rows[i]? = some row)
    (h5 : row[2]? = some c) :
    calculate_row_sum g "INITIAL INVESTMENT" r =
      Except.ok ⟨"INITIAL INVESTMENT", r, cellContribution c⟩ := by
  simp only [calculate_row_sum, h1, if_pos h2, h3, sumPhase, h4, ite_true,
    iiSum_ok_of_get row c h5, Except.map]

theorem c1_witness :
    calculate_row_sum
        ⟨[[Cell.str "INITIAL INVESTMENT", Cell.none, Cell.none],
          [Cell.str "Cost", Cell.none, Cell.str "12.5%"]], 3⟩
        "INITIAL INVESTMENT" "Cost" =
      Except.ok ⟨"INITIAL INVESTMENT", "Cost", cellContribution (Cell.str "12.5%")⟩ :=
  c1_initial_investment_sum_from_column2
    ⟨[[Cell.str "INITIAL INVESTMENT", Cell.none, Cell.none],
      [Cell.str "Cost", Cell.none, Cell.str "12.5%"]], 3⟩
    "Cost" ("INITIAL INVESTMENT", ["Cost"]) 1
    [Cell.str "Cost", Cell.none, Cell.str "12.5%"] (Cell.str "12.5%")
    rfl (by decide) rfl rfl rfl

/-- C2: for every table name other than `INITIAL INVESTMENT`, once the row
is located, the returned sum is the left-to-right accumulation over all
columns 0 through the last column of the grid, where absent cells are
skipped, a `%`-string contributes its stripped parse divided by 100, other
cells contribute their floating-point parse, and a failing cell is skipped
without aborting the sum. -/
theorem c2_general_table_sum_accumulation (g : Grid) (t r : String)
    (td : String × List String) (i : ℕ) (row : List Cell)
    (ht : t ≠ "INITIAL INVESTMENT")
    (h1 : get_table_details g t = Except.ok td)
    (h2 : r ∈ td.2)
    (h3 : relocScan r g.rows = some i)
    (h4 : g.rows[i]? = some row)
    (h5 : row.length = g.ncols) :
    calculate_row_sum g t r =
      Except.ok ⟨t, r,
        (List.range g.ncols).foldl
          (fun a j => a + cellContribution (row.getD j Cell.none)) 0⟩ := by
  have hb : ∀ j ∈ List.range g.ncols, j < row.length := by
    intro j hj
    rw [h5]
    exact List.mem_range.mp hj
  simp only [calculate_row_sum, h1, if_pos h2, h3, sumPhase, h4, if_neg ht,
    sumGeneralAux_ok row _ 0 hb, Except.map]

theorem c2_witness :
    calculate_row_sum
        ⟨[[Cell.str "CASHFLOW DETAILS", Cell.none, Cell.none],
          [Cell.str "Revenue", Cell.num 100, Cell.str "12.5%"]], 3⟩
        "CASHFLOW DETAILS" "Revenue" =
      Except.ok ⟨"CASHFLOW DETAILS", "Revenue", (100125 : ℚ) / 1000⟩ :=
  (c2_general_table_sum_accumulation
    ⟨[[Cell.str "CASHFLOW DETAILS", Cell.none, Cell.none],
      [Cell.str "Revenue", Cell.num 100, Cell.str "12.5%"]], 3⟩
    "CASHFLOW DETAILS" "Revenue" ("CASHFLOW DETAILS", ["Revenue"]) 1
    [Cell.str "Revenue", Cell.num 100, Cell.str "12.5%"]
    (by decide) rfl (by decide) rfl rfl rfl).trans
    (congrArg Except.ok (by
      have h1 : cellContribution (Cell.str "Revenue") = 0 := by
        have hp : parsePyFloat "Revenue" = Option.none := rfl
        simp [cellContribution, pyContains, hp]
      have h2 : cellContribution (Cell.str "12.5%") = 25 / 2 / 100 := by
        have hp : parsePyFloat (stripPercent "12.5%") =
            some ((digitsToNat ['1', '2'] : ℚ) +
              (digitsToNat ['5'] : ℚ) / (10 : ℚ) ^ (['5'] : List Char).length) := rfl
        have hc : pyContains "12.5%" '%' = true := rfl
        rw [cellContribution, if_pos hc, hp]
        norm_num [digitsToNat, show Char.toNat '1' = 49 from rfl,
          show Char.toNat '2' = 50 from rfl, show Char.toNat '5' = 53 from rfl]
      have hr : List.range 3 = [0, 1, 2] := rfl
      rw [show (⟨[[Cell.str "CASHFLOW DETAILS", Cell.none, Cell.none],
            [Cell.str "Revenue", Cell.num 100, Cell.str "12.5%"]], 3⟩ : Grid).ncols = 3
          from rfl, hr]
      simp only [List.foldl_cons, List.foldl_nil, List.getD_cons_zero, List.getD_cons_succ]
      rw [h1, h2]
      norm_num [cellContribution]))

/-- A grid in which the row name `Revenue` occurs under both
`CASHFLOW DETAILS` (grid row 1) and `DISCOUNT RATE` (grid row 4). -/
def dupRowGrid : Grid :=
  ⟨[[Cell.str "CASHFLOW DETAILS", Cell.none],
    [Cell.str "Revenue", Cell.num 1],
    [Cell.none, Cell.none],
    [Cell.str "DISCOUNT RATE", Cell.none],
    [Cell.str "Revenue", Cell.num 2]], 2⟩

/-- C3: the second scan of `rowSum` locates the row by searching the entire
grid top-to-bottom for the first row whose trimmed column-0 value equals
the row name, not restricted to the named table's span: when the same row
name occurs under two different tables, the sum for either table is
computed at the occurrence that comes first in the grid. -/
theorem c3_reloc_scan_ignores_table_span (g : Grid) (ta tb r : String)
    (tda tdb : String × List String) (i : ℕ)
    (hne : ta ≠ tb)
    (h1 : get_table_details g ta = Except.ok tda) (m1 : r ∈ tda.2)
    (h2 : get_table_details g tb = Except.ok tdb) (m2 : r ∈ tdb.2)
    (h3 : relocScan r g.rows = some i) :
    (∃ row, g.rows[i]? = some row ∧ relocMatch r row) ∧
      (∀ j, j < i → ∀ row', g.rows[j]? = some row' → ¬relocMatch r row') ∧
      calculate_row_sum g ta r = sumPhase g ta r i ∧
      calculate_row_sum g tb r = sumPhase g tb r i := by
  obtain ⟨hex, hmin⟩ := relocScan_some r g.rows i h3
  refine ⟨hex, hmin, ?_, ?_⟩
  · simp only [calculate_row_sum, h1, if_pos m1, h3]
  · simp only [calculate_row_sum, h2, if_pos m2, h3]

theorem c3_witness :
    (∃ row, dupRowGrid.rows[1]? = some row ∧ relocMatch "Revenue" row) ∧
      (∀ j, j < 1 → ∀ row', dupRowGrid.rows[j]? = some row' →
        ¬relocMatch "Revenue" row') ∧
      calculate_row_sum dupRowGrid "CASHFLOW DETAILS" "Revenue" =
        sumPhase dupRowGrid "CASHFLOW DETAILS" "Revenue" 1 ∧
      calculate_row_sum dupRowGrid "DISCOUNT RATE" "Revenue" =
        sumPhase dupRowGrid "DISCOUNT RATE" "Revenue" 1 :=
  c3_reloc_scan_ignores_table_span dupRowGrid "CASHFLOW DETAILS" "DISCOUNT RATE"
    "Revenue" ("CASHFLOW DETAILS", ["Revenue"]) ("DISCOUNT RATE", ["Revenue"]) 1
    (by decide) rfl (by decide) rfl (by decide) rfl

/-- C6: the checks of `rowSum` happen in order — first the table lookup via
`listRows` (404 `Table '<name>' not found`), then membership of the row
name in the returned list (404 `Row '<name>' not found in table '<name>'`),
and only afterwards the independent grid scan, whose failure gives the
distinct 404 `Row '<name>' not found in Excel data`. -/
theorem c6_error_order_and_messages (g : Grid) (t r : String) :
    (∀ e, get_table_details g t = Except.error e →
      e = ApiError.http404 ("Table '" ++ t ++ "' not found") ∧
        calculate_row_sum g t r = Except.error e) ∧
    (∀ td, get_table_details g t = Except.ok td → r ∉ td.2 →
      calculate_row_sum g t r =
        Except.error (ApiError.http404
          ("Row '" ++ r ++ "' not found in table '" ++ t ++ "'"))) ∧
    (∀ td, get_table_details g t = Except.ok td → r ∈ td.2 →
      relocScan r g.rows = none →
      calculate_row_sum g t r =
        Except.error (ApiError.http404 ("Row '" ++ r ++ "' not found in Excel data"))) := by
  refine ⟨?_, ?_, ?_⟩
  · intro e he
    constructor
    · unfold get_table_details at he
      cases hh : headerScan t g.rows with
      | none =>
        rw [hh] at he
        exact (Except.error.inj he).symm
      | some i =>
        rw [hh] at he
        exact Except.noConfusion he
    · simp only [calculate_row_sum, he]
  · intro td h hmem
    simp only [calculate_row_sum, h, if_neg hmem]
  · intro td h hmem hrel
    simp only [calculate_row_sum, h, if_pos hmem, hrel]

theorem c6_witness :
    calculate_row_sum ⟨[], 0⟩ "WORKING CAPITAL" "Cost" =
      Except.error (ApiError.http404 "Table 'WORKING CAPITAL' not found") ∧
    calculate_row_sum ⟨[[Cell.str "DISCOUNT RATE"]], 1⟩ "DISCOUNT RATE" "Cost" =
      Except.error
        (ApiError.http404 "Row 'Cost' not found in table 'DISCOUNT RATE'") ∧
    calculate_row_sum ⟨[[Cell.str "GROWTH RATES"], [Cell.num 0]], 1⟩
        "GROWTH RATES" "0.0" =
      Except.error (ApiError.http404 "Row '0.0' not found in Excel data") :=
  ⟨((c6_error_order_and_messages ⟨[], 0⟩ "WORKING CAPITAL" "Cost").1
      (ApiError.http404 "Table 'WORKING CAPITAL' not found") rfl).2,
   (c6_error_order_and_messages ⟨[[Cell.str "DISCOUNT RATE"]], 1⟩
      "DISCOUNT RATE" "Cost").2.1 ("DISCOUNT RATE", []) rfl (by decide),
   (c6_error_order_and_messages ⟨[[Cell.str "GROWTH RATES"], [Cell.num 0]], 1⟩
      "GROWTH RATES" "0.0").2.2 ("GROWTH RATES", ["0.0"]) rfl (by decide) rfl⟩

theorem headerScan_eq_firstRowIdx (t : String) (l : List (List Cell)) :
    headerScan t l = firstRowIdx (claimHeaderRow t) l := by
  induction l with
  | nil => rfl
  | cons row rest ih =>
    rw [headerScan, firstRowIdx, ih]
    cases hc : cell0 row with
    | none => simp [claimHeaderRow, hc]
    | num q => simp [claimHeaderRow, hc]
    | str s =>
      rcases eq_or_ne s "" with rfl | hs
      · simp [claimHeaderRow, hc]
      · rcases eq_or_ne (pyStrip s) t with ht | ht
        · simp [claimHeaderRow, hc, hs, ht]
        · simp [claimHeaderRow, hc, hs, ht]

theorem collectRowNames_eq_takeWhile (l : List (List Cell)) :
    collectRowNames l =
      (l.takeWhile fun row => !isBoundaryCell (cell0 row)).map
        (fun row => pyStrip (pyStr (cell0 row))) := by
  induction l with
  | nil => rfl
  | cons row rest ih =>
    simp only [collectRowNames, List.takeWhile_cons]
    by_cases hn : cell0 row = Cell.none
    · simp [isBoundaryCell, hn]
    · by_cases he : pyStrip (pyStr (cell0 row)) = ""
      · simp [isBoundaryCell, hn, he]
      · by_cases hh : isHeaderStr (cell0 row)
        · simp [isBoundaryCell, hn, he, hh]
        · simp [isBoundaryCell, hn, he, hh, ih]

/-- C4: `listRows` locates the first row (top-to-bottom) whose trimmed
column-0 string equals the table name, fails with the table-not-found 404
when there is none, and otherwise returns the possibly-empty ordered
sequence of trimmed column-0 strings of the rows immediately after it,
stopping without including the boundary at the end of the grid, at an
empty/absent column-0 value, or at a column-0 value trimming to one of the
eight header labels. -/
theorem c4_list_rows_characterisation (g : Grid) (t : String) :
    get_table_details g t =
      match firstRowIdx (claimHeaderRow t) g.rows with
      | Option.none =>
        Except.error (ApiError.http404 ("Table '" ++ t ++ "' not found"))
      | some i =>
        Except.ok (t, ((g.rows.drop (i + 1)).takeWhile
            (fun row => !isBoundaryCell (cell0 row))).map
          (fun row => pyStrip (pyStr (cell0 row)))) := by
  unfold get_table_details
  rw [headerScan_eq_firstRowIdx]
  cases firstRowIdx (claimHeaderRow t) g.rows with
  | none => rfl
  | some i => simp only [collectRowNames_eq_takeWhile]

/-- The spec's table-discovery test: a column-0 value that is a string
trimming to one of the eight labels yields that trimmed label. -/
def claimTableLabel : Cell → Option String
  | Cell.str s =>
    if pyStrip s ∈ tableHeaders then some (pyStrip s) else Option.none
  | _ => Option.none

theorem listTablesAux_eq_filterMap (l : List (List Cell)) :
    listTablesAux l = l.filterMap (fun row => claimTableLabel (cell0 row)) := by
  induction l with
  | nil => rfl
  | cons row rest ih =>
    rw [listTablesAux, List.filterMap_cons]
    cases hc : cell0 row with
    | none => simpa [claimTableLabel, hc] using ih
    | num q => simpa [claimTableLabel, hc] using ih
    | str s =>
      by_cases hm : pyStrip s ∈ tableHeaders
      · have hs : s ≠ "" := by
          intro h
          rw [h] at hm
          exact absurd hm (by decide)
        simp [claimTableLabel, hc, hm, hs, ih]
      · simp [claimTableLabel, hc, hm, ih]

/-- C5: `listTables` returns exactly the ordered sequence, in grid row
order and with duplicates preserved, of the trimmed column-0 values of
those rows whose column-0 value is a string that trims to one of the eight
fixed header labels. -/
theorem c5_list_tables_characterisation (g : Grid) :
    list_tables g = g.rows.filterMap (fun row => claimTableLabel (cell0 row)) :=
  listTablesAux_eq_filterMap g.rows

/-- The character alphabet of numeric `str()` renderings: digits, minus,
dot, slash. -/
def numChar (c : Char) : Bool :=
  c.isDigit || c == '-' || c == '.' || c == '/'

theorem mem_of_mem_dropWhile {p : Char → Bool} {l : List Char} {c : Char}
    (h : c ∈ l.dropWhile p) : c ∈ l := by
  induction l with
  | nil => simpa using h
  | cons a as ih =>
    rw [List.dropWhile_cons] at h
    by_cases hp : p a = true
    · rw [if_pos hp] at h
      exact List.mem_cons_of_mem a (ih h)
    · rw [if_neg hp] at h
      exact h

theorem mem_of_mem_pyStripList {p : Char → Bool} {l : List Char} {c : Char}
    (h : c ∈ pyStripList p l) : c ∈ l := by
  unfold pyStripList at h
  rw [List.mem_reverse] at h
  have h1 := mem_of_mem_dropWhile h
  rw [List.mem_reverse] at h1
  exact mem_of_mem_dropWhile h1

theorem numChar_digitChar (d : ℕ) : numChar (digitChar d) = true := by
  rcases d with _ | _ | _ | _ | _ | _ | _ | _ | _ | d <;> rfl

theorem numChar_of_mem_digitsAux (fuel n : ℕ) (c : Char)
    (h : c ∈ digitsAux fuel n) : numChar c = true := by
  induction fuel generalizing n with
  | zero => simp [digitsAux] at h
  | succ f ih =>
    cases n with
    | zero => simp [digitsAux] at h
    | succ m =>
      rw [digitsAux, List.mem_append] at h
      rcases h with h | h
      · exact ih _ h
      · rw [List.mem_singleton] at h
        rw [h]
        exact numChar_digitChar _

theorem numChar_of_mem_digitsOf (n : ℕ) (c : Char) (h : c ∈ digitsOf n) :
    numChar c = true := by
  unfold digitsOf at h
  by_cases h0 : n = 0
  · rw [if_pos h0, List.mem_singleton] at h
    rw [h]
    rfl
  · rw [if_neg h0] at h
    exact numChar_of_mem_digitsAux _ _ _ h

theorem numChar_of_mem_numReprChars (q : ℚ) (c : Char)
    (h : c ∈ numReprChars q) : numChar c = true := by
  unfold numReprChars at h
  rw [List.mem_append, List.mem_append] at h
  rcases h with (h | h) | h
  · by_cases hn : q.num < 0
    · rw [if_pos hn, List.mem_singleton] at h
      rw [h]
      rfl
    · rw [if_neg hn] at h
      simp at h
  · exact numChar_of_mem_digitsOf _ _ h
  · by_cases hd : q.den = 1
    · rw [if_pos hd] at h
      rcases List.mem_cons.mp h with rfl | h
      · rfl
      · rw [List.mem_singleton] at h
        rw [h]
        rfl
    · rw [if_neg hd] at h
      rcases List.mem_cons.mp h with rfl | h
      · rfl
      · exact numChar_of_mem_digitsOf _ _ h

/-- A string of numeric-rendering characters is never one of the eight
header labels: each label contains the letter `A`, which is not in the
numeric alphabet. -/
theorem not_header_of_numChars (s : String)
    (h : ∀ c ∈ s.data, numChar c = true) : s ∉ tableHeaders := by
  intro hs
  rw [show tableHeaders =
      ["INITIAL INVESTMENT", "CASHFLOW DETAILS", "DISCOUNT RATE",
       "WORKING CAPITAL", "GROWTH RATES", "SALVAGE VALUE",
       "OPERATING CASHFLOWS", "BOOK VALUE & DEPRECIATION"] from rfl] at hs
  simp only [List.mem_cons, List.not_mem_nil, or_false] at hs
  rcases hs with rfl | rfl | rfl | rfl | rfl | rfl | rfl | rfl <;>
    exact absurd (h 'A' (by decide)) (by decide)

theorem collectRowNames_entries (l : List (List Cell)) (x : String)
    (hx : x ∈ collectRowNames l) : x ∉ tableHeaders ∧ x ≠ "" := by
  induction l with
  | nil => simp [collectRowNames] at hx
  | cons row rest ih =>
    simp only [collectRowNames] at hx
    by_cases hn : cell0 row = Cell.none
    · rw [if_pos hn] at hx
      simp at hx
    · rw [if_neg hn] at hx
      by_cases he : pyStrip (pyStr (cell0 row)) = ""
      · rw [if_pos he] at hx
        simp at hx
      · rw [if_neg he] at hx
        by_cases hh : isHeaderStr (cell0 row) = true
        · rw [if_pos hh] at hx
          simp at hx
        · rw [if_neg hh] at hx
          rcases List.mem_cons.mp hx with rfl | hx
          · refine ⟨?_, he⟩
            cases hc : cell0 row with
            | none => exact absurd hc hn
            | str s =>
              intro hmem
              refine hh ?_
              rw [hc]
              simp only [isHeaderStr, decide_eq_true_eq]
              simpa [pyStr] using hmem
            | num q =>
              refine not_header_of_numChars _ ?_
              intro ch hch
              exact numChar_of_mem_numReprChars q ch (mem_of_mem_pyStripList hch)
          · exact ih hx

/-- C7: whenever `listRows` succeeds, the returned sequence contains no
entry equal to any of the eight header labels and no entry equal to the
empty string. -/
theorem c7_list_rows_invariant (g : Grid) (t : String)
    (td : String × List String)
    (h : get_table_details g t = Except.ok td) :
    ∀ x ∈ td.2, x ∉ tableHeaders ∧ x ≠ "" := by
  unfold get_table_details at h
  cases hh : headerScan t g.rows with
  | none =>
    rw [hh] at h
    exact Except.noConfusion h
  | some i =>
    rw [hh] at h
    obtain rfl : (t, collectRowNames (g.rows.drop (i + 1))) = td := Except.ok.inj h
    intro x hx
    exact collectRowNames_entries _ x hx

theorem c7_witness :
    "0.0" ∉ tableHeaders ∧ "0.0" ≠ "" :=
  c7_list_rows_invariant ⟨[[Cell.str "SALVAGE VALUE"], [Cell.num 0]], 1⟩
    "SALVAGE VALUE" ("SALVAGE VALUE", ["0.0"]) rfl "0.0" (by decide)

theorem claimHeaderRow_of_label (row : List Cell) (name : String)
    (hf : claimTableLabel (cell0 row) = some name) :
    claimHeaderRow name row = true := by
  cases hc : cell0 row with
  | none =>
    rw [hc] at hf
    exact Option.noConfusion hf
  | num q =>
    rw [hc] at hf
    exact Option.noConfusion hf
  | str s =>
    rw [hc] at hf
    by_cases hm : pyStrip s ∈ tableHeaders
    · simp only [claimTableLabel, if_pos hm] at hf
      obtain rfl : pyStrip s = name := Option.some.inj hf
      have hs : s ≠ "" := by
        intro h
        rw [h] at hm
        exact absurd hm (by decide)
      simp [claimHeaderRow, hc, hs]
    · simp only [claimTableLabel, if_neg hm] at hf
      exact Option.noConfusion hf

theorem firstRowIdx_of_mem_filterMap (l : List (List Cell)) (name : String)
    (h : name ∈ l.filterMap (fun row => claimTableLabel (cell0 row))) :
    ∃ i, firstRowIdx (claimHeaderRow name) l = some i := by
  induction l with
  | nil => simp at h
  | cons row rest ih =>
    rw [List.filterMap_cons] at h
    rw [firstRowIdx]
    by_cases hcr : claimHeaderRow name row = true
    · exact ⟨0, by rw [if_pos hcr]⟩
    · rw [if_neg hcr]
      have h' : name ∈ rest.filterMap (fun row => claimTableLabel (cell0 row)) := by
        cases hfc : claimTableLabel (cell0 row) with
        | none =>
          simp only [hfc] at h
          exact h
        | some b =>
          simp only [hfc, List.mem_cons] at h
          rcases h with rfl | h
          · exact absurd (claimHeaderRow_of_label row name hfc) hcr
          · exact h
      obtain ⟨i, hi⟩ := ih h'
      exact ⟨i + 1, by rw [hi]; rfl⟩

/-- C8: every name returned by `listTables` finds a matching header row
when passed to `listRows`, so `listRows` never fails with the
table-not-found 404 on a name that `listTables` returned. -/
theorem c8_list_tables_names_found_by_list_rows (g : Grid) (name : String)
    (h : name ∈ list_tables g) :
    ∃ td, get_table_details g name = Except.ok td := by
  unfold list_tables at h
  rw [listTablesAux_eq_filterMap] at h
  obtain ⟨i, hi⟩ := firstRowIdx_of_mem_filterMap g.rows name h
  refine ⟨(name, collectRowNames (g.rows.drop (i + 1))), ?_⟩
  unfold get_table_details
  rw [headerScan_eq_firstRowIdx, hi]

theorem c8_witness :
    ∃ td, get_table_details ⟨[[Cell.str " GROWTH RATES ", Cell.num 7]], 2⟩
      "GROWTH RATES" = Except.ok td :=
  c8_list_tables_names_found_by_list_rows
    ⟨[[Cell.str " GROWTH RATES ", Cell.num 7]], 2⟩ "GROWTH RATES" (by decide)

/-- C9: passing the membership check of `rowSum` does not guarantee its
relocation scan succeeds: in this grid, row 1 carries the falsy numeric
value 0 in column 0, so `listRows` lists it under its `str()` form `0.0`
while the relocation scan treats the row as unnamed, and `rowSum` fails
with the Excel-data 404 even though the membership check passed. -/
theorem c9_membership_does_not_imply_relocation :
    get_table_details
        ⟨[[Cell.str "CASHFLOW DETAILS", Cell.none], [Cell.num 0, Cell.num 5]], 2⟩
        "CASHFLOW DETAILS" =
      Except.ok ("CASHFLOW DETAILS", ["0.0"]) ∧
    calculate_row_sum
        ⟨[[Cell.str "CASHFLOW DETAILS", Cell.none], [Cell.num 0, Cell.num 5]], 2⟩
        "CASHFLOW DETAILS" "0.0" =
      Except.error (ApiError.http404 "Row '0.0' not found in Excel data") :=
  ⟨rfl, rfl⟩

/-- C10: on a grid with fewer than 3 columns, `rowSum` for
`INITIAL INVESTMENT` on any row that passes the existence checks reads
column index 2 out of bounds, and since only `ValueError`/`TypeError` are
caught, the operation fails with an uncaught `IndexError` instead of
returning 0 or a 404. -/
theorem c10_initial_investment_index_error (g : Grid) (r : String)
    (td : String × List String) (i : ℕ)
    (hcols : g.ncols < 3)
    (hrect : ∀ row ∈ g.rows, row.length = g.ncols)
    (h1 : get_table_details g "INITIAL INVESTMENT" = Except.ok td)
    (h2 : r ∈ td.2)
    (h3 : relocScan r g.rows = some i) :
    calculate_row_sum g "INITIAL INVESTMENT" r =
      Except.error ApiError.pyIndexError := by
  obtain ⟨⟨row, hrow, _⟩, _⟩ := relocScan_some r g.rows i h3
  have hmem : row ∈ g.rows := by
    have hlt : i < g.rows.length := by
      by_contra hge
      rw [List.getElem?_eq_none (Nat.le_of_not_lt hge)] at hrow
      exact Option.noConfusion hrow
    have := List.getElem?_eq_getElem hlt
    rw [this] at hrow
    obtain rfl : g.rows[i] = row := Option.some.inj hrow
    exact List.getElem_mem hlt
  have hlen : row.length = g.ncols := hrect row hmem
  have h2none : row[2]? = Option.none := List.getElem?_eq_none (by omega)
  simp only [calculate_row_sum, h1, if_pos h2, h3, sumPhase, hrow, ite_true,
    iiSum, h2none, Except.map]

theorem c10_witness :
    calculate_row_sum ⟨[[Cell.str "INITIAL INVESTMENT", Cell.none],
        [Cell.str "Cost", Cell.num 5]], 2⟩ "INITIAL INVESTMENT" "Cost" =
      Except.error ApiError.pyIndexError :=
  c10_initial_investment_index_error
    ⟨[[Cell.str "INITIAL INVESTMENT", Cell.none], [Cell.str "Cost", Cell.num 5]], 2⟩
    "Cost" ("INITIAL INVESTMENT", ["Cost"]) 1
    (by decide) (by decide) rfl (by decide) rfl
